import Mathlib

/-!
Verification development for the affiliate-next-orchestrator backend.

The Convex backend is shallowly embedded: each table row type mirrors the
schema in `packages/backend/convex/schema.ts`, the database is a record of
association lists keyed by numeric document ids, and every query / mutation /
action handler is a Lean function from an (optional) authenticated user id and
a database to an `Except String` result, mirroring the `throw new Error(...)`
/ return behaviour of the source handlers.  Convex mutations are transactional,
so a handler that throws leaves the database unchanged; actions run their
`ctx.runMutation` calls as separate transactions, which the embedding mirrors
by sequencing the mutation functions and letting already-committed
intermediate states survive a later throw.  Actions additionally produce a
trace of externally visible events (status writes, sleeps, provider HTTP
calls) so that properties about what the placeholder actions do and do not do
(no provider calls, a single fixed-duration sleep, ...) can be stated.
-/

namespace AffOrch

/-- ServerStatus mirrors the `status` union of the `servers` table in
`schema.ts`: creating / installing / configuring / ready / error / deleting. -/
inductive ServerStatus
  | creating
  | installing
  | configuring
  | ready
  | error
  | deleting
deriving DecidableEq, Repr

/-- DeploymentStatus mirrors the `status` union of the `deployments` table:
deploying / running / stopped / error. -/
inductive DeploymentStatus
  | deploying
  | running
  | stopped
  | error
deriving DecidableEq, Repr

/-- ServerRecord mirrors a row of the `servers` table in `schema.ts`. -/
structure ServerRecord where
  userId : String
  hetznerServerId : String
  name : String
  ipAddress : Option String := none
  status : ServerStatus
  region : String
  sshKeyId : Option String := none
  dokployInstalled : Bool
  createdAt : Nat
  errorMessage : Option String := none
deriving DecidableEq, Repr

/-- DeploymentRecord mirrors a row of the `deployments` table in `schema.ts`. -/
structure DeploymentRecord where
  userId : String
  serverId : Nat
  name : String
  domain : Option String := none
  status : DeploymentStatus
  wordpressAdminUser : String
  wordpressAdminPass : String
  sslEnabled : Bool
  createdAt : Nat
  errorMessage : Option String := none
deriving DecidableEq, Repr

/-- ApiKeysRecord mirrors a row of the `apiKeys` table in `schema.ts`. -/
structure ApiKeysRecord where
  userId : String
  hetznerApiKey : Option String := none
  dokployApiKey : Option String := none
  dokployUrl : Option String := none
  isHetznerValid : Bool
  isDokployValid : Bool
  lastValidated : Option Nat := none
deriving DecidableEq, Repr

/-- Task mirrors the `ctx.scheduler.runAfter(0, ...)` targets used by the
backend; the delay is always `0` in the source, so only the target function
and its argument are recorded. -/
inductive Task
  | provisionServer (serverId : Nat)
  | destroyServer (serverId : Nat)
  | deployWordPress (deploymentId : Nat)
  | destroyWordPress (deploymentId : Nat)
deriving DecidableEq, Repr

/-- NetMethod keeps the HTTP method of a provider call; the source only ever
issues GET requests from `validateApiKeys`. -/
inductive NetMethod
  | GET
deriving DecidableEq, Repr

/-- NetRequest is a provider HTTP request as issued by `fetch` in the source:
method, URL, and the bearer credential placed in the Authorization header. -/
structure NetRequest where
  method : NetMethod
  url : String
  bearer : String
deriving DecidableEq, Repr

/-- NetResponse abstracts the outcomes the source code distinguishes for a
`fetch` call: `response.ok`, `response.status === 401`, any other HTTP error,
and a thrown network error (the `catch` branch). -/
inductive NetResponse
  | ok
  | unauthorized
  | otherError
  | connectFailure
deriving DecidableEq, Repr

/-- Event is an externally visible effect of an action: writing a `status`
field through a mutation, sleeping (`setTimeout`), or calling a provider API
(`fetch`). -/
inductive Event
  | statusWriteServer (serverId : Nat) (status : ServerStatus)
  | statusWriteDeployment (deploymentId : Nat) (status : DeploymentStatus)
  | sleep (ms : Nat)
  | providerCall (req : NetRequest)
deriving DecidableEq, Repr

/-- Event.isProviderCall tests whether an event is a provider API call. -/
def Event.isProviderCall : Event → Bool
  | Event.providerCall _ => true
  | _ => false

/-- Event.isSleep tests whether an event is a `setTimeout` sleep. -/
def Event.isSleep : Event → Bool
  | Event.sleep _ => true
  | _ => false

/-- DB is the state store: the three tables the claims touch, plus the queue
of scheduled actions and the id counter Convex uses to mint document ids. -/
structure DB where
  servers : List (Nat × ServerRecord) := []
  deployments : List (Nat × DeploymentRecord) := []
  apiKeys : List (Nat × ApiKeysRecord) := []
  pending : List Task := []
  nextId : Nat := 0
deriving DecidableEq, Repr

/-- findRec is `ctx.db.get` on an association-list table: the record stored
under a document id, if any. -/
def findRec {α : Type} (id : Nat) : List (Nat × α) → Option α
  | [] => none
  | p :: t => if p.1 = id then some p.2 else findRec id t

/-- setRec is `ctx.db.patch` (with the patched record already computed): it
replaces the record stored under `id`, leaving every other entry unchanged. -/
def setRec {α : Type} (id : Nat) (r : α) : List (Nat × α) → List (Nat × α)
  | [] => []
  | p :: t => (if p.1 = id then (p.1, r) else p) :: setRec id r t

/-- removeRec is the list part of `ctx.db.delete`: it drops the entry stored
under `id`. -/
def removeRec {α : Type} (id : Nat) : List (Nat × α) → List (Nat × α)
  | [] => []
  | p :: t => if p.1 = id then removeRec id t else p :: removeRec id t

/-- serversByUser is the `servers` index query
`withIndex("by_user", q => q.eq("userId", u)).collect()`. -/
def serversByUser (u : String) (db : DB) : List (Nat × ServerRecord) :=
  db.servers.filter (fun p => p.2.userId == u)

/-- deploymentsByUser is the `deployments` index query
`withIndex("by_user", q => q.eq("userId", u)).collect()`. -/
def deploymentsByUser (u : String) (db : DB) : List (Nat × DeploymentRecord) :=
  db.deployments.filter (fun p => p.2.userId == u)

/-- apiKeysByUser is the `apiKeys` index query
`withIndex("by_user", q => q.eq("userId", u))`. -/
def apiKeysByUser (u : String) (db : DB) : List (Nat × ApiKeysRecord) :=
  db.apiKeys.filter (fun p => p.2.userId == u)

/-- uniqueApiKeysByUser is `.unique()` on the `apiKeys` by_user query: `none`
when no row matches, the row when exactly one matches, and a thrown error when
several match. -/
def uniqueApiKeysByUser (db : DB) (u : String) :
    Except String (Option (Nat × ApiKeysRecord)) :=
  match apiKeysByUser u db with
  | [] => Except.ok none
  | [k] => Except.ok (some k)
  | _ => Except.error "unique() query returned more than one document"

/-- Modelled from the spec: `authComponent.getAuthUser` lives outside the
sources provided (the auth module is only imported); section 6 of the spec
says the boundary supplies the core just a "current owner id".  The embedding
therefore passes the resolved identity as an `Option String` argument; every
handler begins with the `if (!user) throw new Error("Not authenticated")`
guard of the source. -/
def requireAuth (auth : Option String) : Except String String :=
  match auth with
  | some u => Except.ok u
  | none => Except.error "Not authenticated"

/-- FnExposure records how a Convex function is registered in the source:
as a public `query`/`mutation`/`action`, or as an `internalQuery` /
`internalMutation` / `internalAction` reachable only from other backend
functions. -/
inductive FnExposure
  | publicFn
  | internalFn
deriving DecidableEq, Repr

namespace Servers

/-- ServerListItem is the projection returned per server by `getUserServers`
in `servers.ts` (lines 20-29). -/
structure ServerListItem where
  docId : Nat
  name : String
  ipAddress : Option String
  status : ServerStatus
  region : String
  dokployInstalled : Bool
  createdAt : Nat
  errorMessage : Option String
deriving DecidableEq, Repr

/-- serverItem builds the `getUserServers` projection from a stored row. -/
def serverItem (p : Nat × ServerRecord) : ServerListItem :=
  { docId := p.1, name := p.2.name, ipAddress := p.2.ipAddress,
    status := p.2.status, region := p.2.region,
    dokployInstalled := p.2.dokployInstalled, createdAt := p.2.createdAt,
    errorMessage := p.2.errorMessage }

/-- getUserServers (public query, `servers.ts` lines 7-31): all servers of the
authenticated user via the by_user index, projected to `ServerListItem`. -/
def getUserServers (auth : Option String) (db : DB) :
    Except String (List ServerListItem) :=
  match requireAuth auth with
  | Except.error e => Except.error e
  | Except.ok u => Except.ok ((serversByUser u db).map serverItem)

/-- ServerDetail is the projection returned by the internal `getServer` query
(`servers.ts` lines 47-57); unlike the list view it includes
`hetznerServerId`. -/
structure ServerDetail where
  docId : Nat
  name : String
  hetznerServerId : String
  ipAddress : Option String
  status : ServerStatus
  region : String
  dokployInstalled : Bool
  createdAt : Nat
  errorMessage : Option String
deriving DecidableEq, Repr

/-- getServer (internalQuery, `servers.ts` lines 34-59): returns the server
stored under the id, or `null` when it is missing or owned by someone else. -/
def getServer (auth : Option String) (serverId : Nat) (db : DB) :
    Except String (Option ServerDetail) :=
  match requireAuth auth with
  | Except.error e => Except.error e
  | Except.ok u =>
    match findRec serverId db.servers with
    | none => Except.ok none
    | some s =>
      if s.userId = u then
        Except.ok (some
          { docId := serverId, name := s.name,
            hetznerServerId := s.hetznerServerId, ipAddress := s.ipAddress,
            status := s.status, region := s.region,
            dokployInstalled := s.dokployInstalled, createdAt := s.createdAt,
            errorMessage := s.errorMessage })
      else Except.ok none

/-- CreateServerArgs are the arguments of `createServer`. -/
structure CreateServerArgs where
  name : String
  region : String
deriving DecidableEq, Repr

/-- createServer (public mutation, `servers.ts` lines 62-98): requires an
authenticated user with a stored apiKeys row whose `isHetznerValid` flag is
set, inserts a fresh server row with status "creating", and schedules the
`provisionServer` action.  `now` stands for `Date.now()`. -/
def createServer (auth : Option String) (now : Nat) (args : CreateServerArgs)
    (db : DB) : Except String (DB × Nat) :=
  match requireAuth auth with
  | Except.error e => Except.error e
  | Except.ok u =>
    match uniqueApiKeysByUser db u with
    | Except.error e => Except.error e
    | Except.ok keys =>
      let valid : Bool :=
        match keys with
        | some k => k.2.isHetznerValid
        | none => false
      if valid then
        let sid := db.nextId
        let r : ServerRecord :=
          { userId := u, hetznerServerId := "", name := args.name,
            ipAddress := none, status := ServerStatus.creating,
            region := args.region, sshKeyId := none, dokployInstalled := false,
            createdAt := now, errorMessage := none }
        Except.ok
          ({ db with servers := db.servers ++ [(sid, r)],
                     pending := db.pending ++ [Task.provisionServer sid],
                     nextId := db.nextId + 1 }, sid)
      else Except.error "Valid Hetzner API key required"

/-- UpdateServerStatusArgs are the arguments of `updateServerStatus`; the
optional fields are patched only when present, exactly like the
`if (args.x !== undefined)` chain in the source. -/
structure UpdateServerStatusArgs where
  serverId : Nat
  status : ServerStatus
  ipAddress : Option String := none
  hetznerServerId : Option String := none
  errorMessage : Option String := none
  dokployInstalled : Option Bool := none
deriving DecidableEq, Repr

/-- applyUpdates builds the patched record of `updateServerStatus`
(`servers.ts` lines 128-134): `status` is always written; the other fields
only when the corresponding argument was supplied. -/
def applyUpdates (s : ServerRecord) (args : UpdateServerStatusArgs) :
    ServerRecord :=
  { s with
    status := args.status,
    ipAddress :=
      match args.ipAddress with
      | some x => some x
      | none => s.ipAddress,
    hetznerServerId :=
      match args.hetznerServerId with
      | some x => x
      | none => s.hetznerServerId,
    errorMessage :=
      match args.errorMessage with
      | some x => some x
      | none => s.errorMessage,
    dokployInstalled :=
      match args.dokployInstalled with
      | some x => x
      | none => s.dokployInstalled }

/-- updateServerStatus (internalMutation, `servers.ts` lines 101-137):
requires authentication and ownership, then patches the record. -/
def updateServerStatus (auth : Option String) (args : UpdateServerStatusArgs)
    (db : DB) : Except String DB :=
  match requireAuth auth with
  | Except.error e => Except.error e
  | Except.ok u =>
    match findRec args.serverId db.servers with
    | none => Except.error "Server not found or access denied"
    | some s =>
      if s.userId = u then
        Except.ok
          { db with servers := setRec args.serverId (applyUpdates s args) db.servers }
      else Except.error "Server not found or access denied"

/-- deleteServer (public mutation, `servers.ts` lines 140-161): requires
authentication and ownership, patches `status` to "deleting", and schedules
the `destroyServer` action. -/
def deleteServer (auth : Option String) (serverId : Nat) (db : DB) :
    Except String DB :=
  match requireAuth auth with
  | Except.error e => Except.error e
  | Except.ok u =>
    match findRec serverId db.servers with
    | none => Except.error "Server not found or access denied"
    | some s =>
      if s.userId = u then
        Except.ok
          { db with
              servers := setRec serverId { s with status := ServerStatus.deleting } db.servers,
              pending := db.pending ++ [Task.destroyServer serverId] }
      else Except.error "Server not found or access denied"

/-- deleteServerRecord (internalMutation, `servers.ts` lines 244-250):
`ctx.db.delete(serverId)` with no authentication or ownership check;
deleting a nonexistent document throws, as Convex `db.delete` does. -/
def deleteServerRecord (auth : Option String) (serverId : Nat) (db : DB) :
    Except String DB :=
  match findRec serverId db.servers with
  | none => Except.error "Delete on nonexistent document"
  | some _ => Except.ok { db with servers := removeRec serverId db.servers }

/-- provisionCatch is the `catch` block of `provisionServer` (`servers.ts`
lines 198-208): mark the server "error" with the thrown message, then
schedule `destroyServer` as cleanup.  `tr` is the event trace accumulated by
the `try` block before the failure; the mutations it performed have already
committed, so the catch starts from the current `db`. -/
def provisionCatch (auth : Option String) (serverId : Nat) (msg : String)
    (tr : List Event) (db : DB) : Except String (DB × List Event) :=
  match updateServerStatus auth
      { serverId := serverId, status := ServerStatus.error,
        errorMessage := some msg } db with
  | Except.error e => Except.error e
  | Except.ok db1 =>
    Except.ok
      ({ db1 with pending := db1.pending ++ [Task.destroyServer serverId] },
       tr ++ [Event.statusWriteServer serverId ServerStatus.error])

/-- provisionServer (internalAction, `servers.ts` lines 164-212), the
placeholder provisioning path: patch status "installing" with a placeholder
Hetzner id and IP, sleep 1000 ms, patch "configuring", patch "ready" with
`dokployInstalled: true`; on any throw run `provisionCatch`.

Modelled from the spec: the actual Hetzner create call is an unimplemented
TODO in the source, and the spec (section 4.3 and the `failed-terminal`
scenario) says a provider call may fail; `providerOutcome` injects that
missing call's outcome (`some msg` standing for a thrown provider error,
`none` for success), so that the source's `catch` branch is reachable. -/
def provisionServer (auth : Option String) (providerOutcome : Option String)
    (serverId : Nat) (db : DB) : Except String (DB × List Event) :=
  match providerOutcome with
  | some msg => provisionCatch auth serverId msg [] db
  | none =>
    match updateServerStatus auth
        { serverId := serverId, status := ServerStatus.installing,
          hetznerServerId := some "placeholder-server-id",
          ipAddress := some "192.168.1.100" } db with
    | Except.error e => provisionCatch auth serverId e [] db
    | Except.ok db1 =>
      match updateServerStatus auth
          { serverId := serverId, status := ServerStatus.configuring } db1 with
      | Except.error e =>
        provisionCatch auth serverId e
          [Event.statusWriteServer serverId ServerStatus.installing,
           Event.sleep 1000] db1
      | Except.ok db2 =>
        match updateServerStatus auth
            { serverId := serverId, status := ServerStatus.ready,
              dokployInstalled := some true } db2 with
        | Except.error e =>
          provisionCatch auth serverId e
            [Event.statusWriteServer serverId ServerStatus.installing,
             Event.sleep 1000,
             Event.statusWriteServer serverId ServerStatus.configuring] db2
        | Except.ok db3 =>
          Except.ok
            (db3,
             [Event.statusWriteServer serverId ServerStatus.installing,
              Event.sleep 1000,
              Event.statusWriteServer serverId ServerStatus.configuring,
              Event.statusWriteServer serverId ServerStatus.ready])

/-- destroyServer (internalAction, `servers.ts` lines 215-241): look the
server up via `getServer`; a `null` result returns immediately, a found
record is deleted via `deleteServerRecord`; any throw is caught and
`deleteServerRecord` is attempted anyway. -/
def destroyServer (auth : Option String) (serverId : Nat) (db : DB) :
    Except String (DB × List Event) :=
  match getServer auth serverId db with
  | Except.ok none => Except.ok (db, [])
  | Except.ok (some _) =>
    match deleteServerRecord auth serverId db with
    | Except.ok db1 => Except.ok (db1, [])
    | Except.error _ =>
      match deleteServerRecord auth serverId db with
      | Except.ok db1 => Except.ok (db1, [])
      | Except.error e2 => Except.error e2
  | Except.error _ =>
    match deleteServerRecord auth serverId db with
    | Except.ok db1 => Except.ok (db1, [])
    | Except.error e2 => Except.error e2

/-- getUserServers is registered with the public `query` builder. -/
def getUserServers_exposure : FnExposure := FnExposure.publicFn

/-- getServer is registered with the `internalQuery` builder. -/
def getServer_exposure : FnExposure := FnExposure.internalFn

/-- createServer is registered with the public `mutation` builder. -/
def createServer_exposure : FnExposure := FnExposure.publicFn

/-- updateServerStatus is registered with the `internalMutation` builder. -/
def updateServerStatus_exposure : FnExposure := FnExposure.internalFn

/-- deleteServer is registered with the public `mutation` builder. -/
def deleteServer_exposure : FnExposure := FnExposure.publicFn

/-- provisionServer is registered with the `internalAction` builder. -/
def provisionServer_exposure : FnExposure := FnExposure.internalFn

/-- destroyServer is registered with the `internalAction` builder. -/
def destroyServer_exposure : FnExposure := FnExposure.internalFn

/-- deleteServerRecord is registered with the `internalMutation` builder. -/
def deleteServerRecord_exposure : FnExposure := FnExposure.internalFn

end Servers

namespace Deployments

/-- DeploymentListItem is the projection returned per deployment by
`getUserDeployments` and `getDeployment` (the unnamed deployments module,
lines 24-35 and 92-103): the stored fields plus the looked-up server name. -/
structure DeploymentListItem where
  docId : Nat
  serverId : Nat
  serverName : String
  name : String
  domain : Option String
  status : DeploymentStatus
  wordpressAdminUser : String
  sslEnabled : Bool
  createdAt : Nat
  errorMessage : Option String
deriving DecidableEq, Repr

/-- serverNameOrUnknown is `server?.name || "Unknown Server"`: the referenced
server's name, falling back to "Unknown Server" when the server is missing or
its name is the empty string (`||` treats `""` as falsy). -/
def serverNameOrUnknown (srv : Option ServerRecord) : String :=
  match srv with
  | some s => if s.name = "" then "Unknown Server" else s.name
  | none => "Unknown Server"

/-- deploymentItem builds the deployment projection from a stored row and the
result of `ctx.db.get(deployment.serverId)`. -/
def deploymentItem (id : Nat) (d : DeploymentRecord) (srv : Option ServerRecord) :
    DeploymentListItem :=
  { docId := id, serverId := d.serverId, serverName := serverNameOrUnknown srv,
    name := d.name, domain := d.domain, status := d.status,
    wordpressAdminUser := d.wordpressAdminUser, sslEnabled := d.sslEnabled,
    createdAt := d.createdAt, errorMessage := d.errorMessage }

/-- getUserDeployments (public query, deployments module lines 7-41): all
deployments of the authenticated user via the by_user index, each joined with
the name of its server. -/
def getUserDeployments (auth : Option String) (db : DB) :
    Except String (List DeploymentListItem) :=
  match requireAuth auth with
  | Except.error e => Except.error e
  | Except.ok u =>
    Except.ok ((deploymentsByUser u db).map
      (fun p => deploymentItem p.1 p.2 (findRec p.2.serverId db.servers)))

/-- getDeployment (query, deployments module lines 77-105): the deployment
stored under the id, or `null` when missing or owned by someone else. -/
def getDeployment (auth : Option String) (deploymentId : Nat) (db : DB) :
    Except String (Option DeploymentListItem) :=
  match requireAuth auth with
  | Except.error e => Except.error e
  | Except.ok u =>
    match findRec deploymentId db.deployments with
    | none => Except.ok none
    | some d =>
      if d.userId = u then
        Except.ok (some (deploymentItem deploymentId d (findRec d.serverId db.servers)))
      else Except.ok none

/-- UpdateDeploymentStatusArgs are the arguments of `updateDeploymentStatus`. -/
structure UpdateDeploymentStatusArgs where
  deploymentId : Nat
  status : DeploymentStatus
  errorMessage : Option String := none
deriving DecidableEq, Repr

/-- patchedDep is the `updates` object of `updateDeploymentStatus` applied to
the stored record: `status` is always written, `errorMessage` only when the
argument was supplied. -/
def patchedDep (d : DeploymentRecord) (args : UpdateDeploymentStatusArgs) :
    DeploymentRecord :=
  { d with status := args.status,
           errorMessage :=
             match args.errorMessage with
             | some m => some m
             | none => d.errorMessage }

/-- updateDeploymentStatus (registered with the public `mutation` builder,
deployments module lines 167-197): requires authentication and ownership,
then patches `status` and, when supplied, `errorMessage`. -/
def updateDeploymentStatus (auth : Option String)
    (args : UpdateDeploymentStatusArgs) (db : DB) : Except String DB :=
  match requireAuth auth with
  | Except.error e => Except.error e
  | Except.ok u =>
    match findRec args.deploymentId db.deployments with
    | none => Except.error "Deployment not found or access denied"
    | some d =>
      if d.userId = u then
        Except.ok { db with deployments := setRec args.deploymentId (patchedDep d args) db.deployments }
      else Except.error "Deployment not found or access denied"

/-- deleteDeployment (public mutation, deployments module lines 200-219):
requires authentication and ownership, patches `status` to "stopped", and
schedules the `destroyWordPress` action. -/
def deleteDeployment (auth : Option String) (deploymentId : Nat) (db : DB) :
    Except String DB :=
  match requireAuth auth with
  | Except.error e => Except.error e
  | Except.ok u =>
    match findRec deploymentId db.deployments with
    | none => Except.error "Deployment not found or access denied"
    | some d =>
      if d.userId = u then
        Except.ok
          { db with
              deployments := setRec deploymentId { d with status := DeploymentStatus.stopped } db.deployments,
              pending := db.pending ++ [Task.destroyWordPress deploymentId] }
      else Except.error "Deployment not found or access denied"

/-- deleteDeploymentRecord (registered with the public `mutation` builder,
deployments module lines 292-298): `ctx.db.delete(deploymentId)` with no
authentication or ownership check. -/
def deleteDeploymentRecord (auth : Option String) (deploymentId : Nat)
    (db : DB) : Except String DB :=
  match findRec deploymentId db.deployments with
  | none => Except.error "Delete on nonexistent document"
  | some _ => Except.ok { db with deployments := removeRec deploymentId db.deployments }

/-- deployCatch is the `catch` block of `deployWordPress` (deployments module
lines 254-261): mark the deployment "error" with the thrown message. -/
def deployCatch (auth : Option String) (deploymentId : Nat) (msg : String)
    (tr : List Event) (db : DB) : Except String (DB × List Event) :=
  match updateDeploymentStatus auth
      { deploymentId := deploymentId, status := DeploymentStatus.error,
        errorMessage := some msg } db with
  | Except.error e => Except.error e
  | Except.ok db1 =>
    Except.ok (db1, tr ++ [Event.statusWriteDeployment deploymentId DeploymentStatus.error])

/-- deployWordPress (action, deployments module lines 222-265), the
placeholder deployment path: read the deployment (throwing "Deployment not
found" on `null`), sleep 2000 ms, and mark the record "running"; the SSL and
plugin steps are TODO comments with no effect; any throw runs `deployCatch`. -/
def deployWordPress (auth : Option String) (deploymentId : Nat) (db : DB) :
    Except String (DB × List Event) :=
  match getDeployment auth deploymentId db with
  | Except.error e => deployCatch auth deploymentId e [] db
  | Except.ok none => deployCatch auth deploymentId "Deployment not found" [] db
  | Except.ok (some _) =>
    match updateDeploymentStatus auth
        { deploymentId := deploymentId, status := DeploymentStatus.running } db with
    | Except.error e => deployCatch auth deploymentId e [Event.sleep 2000] db
    | Except.ok db1 =>
      Except.ok (db1, [Event.sleep 2000,
        Event.statusWriteDeployment deploymentId DeploymentStatus.running])

/-- destroyWordPress (action, deployments module lines 268-289): delete the
record via `deleteDeploymentRecord`; any throw is caught and the delete is
attempted again. -/
def destroyWordPress (auth : Option String) (deploymentId : Nat) (db : DB) :
    Except String (DB × List Event) :=
  match deleteDeploymentRecord auth deploymentId db with
  | Except.ok db1 => Except.ok (db1, [])
  | Except.error _ =>
    match deleteDeploymentRecord auth deploymentId db with
    | Except.ok db1 => Except.ok (db1, [])
    | Except.error e2 => Except.error e2

/-- getUserDeployments is registered with the public `query` builder. -/
def getUserDeployments_exposure : FnExposure := FnExposure.publicFn

/-- getDeployment is registered with the public `query` builder. -/
def getDeployment_exposure : FnExposure := FnExposure.publicFn

/-- updateDeploymentStatus is registered with the public `mutation` builder. -/
def updateDeploymentStatus_exposure : FnExposure := FnExposure.publicFn

/-- deleteDeployment is registered with the public `mutation` builder. -/
def deleteDeployment_exposure : FnExposure := FnExposure.publicFn

/-- deployWordPress is registered with the public `action` builder. -/
def deployWordPress_exposure : FnExposure := FnExposure.publicFn

/-- destroyWordPress is registered with the public `action` builder. -/
def destroyWordPress_exposure : FnExposure := FnExposure.publicFn

/-- deleteDeploymentRecord is registered with the public `mutation` builder
(unlike `deleteServerRecord`, which is an `internalMutation`). -/
def deleteDeploymentRecord_exposure : FnExposure := FnExposure.publicFn

end Deployments

/-- ValidateArgs are the arguments of both `validateApiKeys` variants. -/
structure ValidateArgs where
  hetznerApiKey : Option String := none
  dokployApiKey : Option String := none
  dokployUrl : Option String := none
deriving DecidableEq, Repr

/-- ValidateResult is the return value of both `validateApiKeys` variants. -/
structure ValidateResult where
  hetznerValid : Bool
  dokployValid : Bool
  errors : List String
deriving DecidableEq, Repr

namespace ApiKeysPkg

/-- validateApiKeys as found in `packages/backend/convex/apiKeys.ts` (lines
94-146), the placeholder variant: each block is guarded by JS truthiness
(`if (args.hetznerApiKey)`, `if (args.dokployApiKey && args.dokployUrl)`), so
an absent or empty-string credential is skipped entirely; a provided Hetzner
key is judged valid when its length exceeds 10, the Dokploy pair when the key
length exceeds 10 and the URL starts with "http"; no `fetch` happens, so the
event trace is empty, and the handler touches no database. -/
def validateApiKeys (args : ValidateArgs) : ValidateResult × List Event :=
  let hetzner : Bool × List String :=
    match args.hetznerApiKey with
    | none => (false, [])
    | some key =>
      if key = "" then (false, [])
      else if key.length > 10 then (true, [])
      else (false, ["Invalid Hetzner API key format"])
  let dokploy : Bool × List String :=
    match args.dokployApiKey, args.dokployUrl with
    | some key, some url =>
      if key = "" ∨ url = "" then (false, [])
      else if key.length > 10 && url.startsWith "http" then (true, [])
      else (false, ["Invalid Dokploy API key or URL format"])
    | _, _ => (false, [])
  ({ hetznerValid := hetzner.1, dokployValid := dokploy.1,
     errors := hetzner.2 ++ dokploy.2 }, [])

end ApiKeysPkg

namespace ApiKeysAlt

/-- hetznerReq is the `fetch` request of the unnamed apiKeys module (part_000
lines 108-114): GET https://api.hetzner.cloud/v1/locations with the key as
bearer credential. -/
def hetznerReq (key : String) : NetRequest :=
  { method := NetMethod.GET, url := "https://api.hetzner.cloud/v1/locations",
    bearer := key }

/-- dokployReq is the `fetch` request of part_000 lines 133-141: GET
`baseUrl + "/api/auth/profile"` where a trailing slash is stripped from the
configured URL, with the Dokploy key as bearer credential. -/
def dokployReq (key url : String) : NetRequest :=
  { method := NetMethod.GET,
    url := (if url.endsWith "/" then url.dropRight 1 else url) ++ "/api/auth/profile",
    bearer := key }

/-- validateApiKeys as found in the unnamed apiKeys module (part_000 lines
93-162), the variant with real API calls: each block is guarded by JS
truthiness (`if (args.hetznerApiKey)`, `if (args.dokployApiKey &&
args.dokployUrl)`), so an absent or empty-string credential is skipped with
no fetch and verdict false; a provided credential is checked with a GET
against a read-only provider endpoint, and the verdict is `response.ok`; a
401 and other failures only add error strings.  `net` is the network: the
response each request receives.  The handler touches no database. -/
def validateApiKeys (net : NetRequest → NetResponse) (args : ValidateArgs) :
    ValidateResult × List Event :=
  let hetzner : Bool × List String × List Event :=
    match args.hetznerApiKey with
    | none => (false, [], [])
    | some key =>
      if key = "" then (false, [], [])
      else
        match net (hetznerReq key) with
        | NetResponse.ok => (true, [], [Event.providerCall (hetznerReq key)])
        | NetResponse.unauthorized =>
          (false, ["Invalid Hetzner API key - authentication failed"],
           [Event.providerCall (hetznerReq key)])
        | NetResponse.otherError =>
          (false, ["Failed to validate Hetzner API key - API error"],
           [Event.providerCall (hetznerReq key)])
        | NetResponse.connectFailure =>
          (false, ["Failed to connect to Hetzner API"],
           [Event.providerCall (hetznerReq key)])
  let dokploy : Bool × List String × List Event :=
    match args.dokployApiKey, args.dokployUrl with
    | some key, some url =>
      if key = "" ∨ url = "" then (false, [], [])
      else
        match net (dokployReq key url) with
        | NetResponse.ok => (true, [], [Event.providerCall (dokployReq key url)])
        | NetResponse.unauthorized =>
          (false, ["Invalid Dokploy API key - authentication failed"],
           [Event.providerCall (dokployReq key url)])
        | NetResponse.otherError =>
          (false, ["Failed to validate Dokploy API key - API error"],
           [Event.providerCall (dokployReq key url)])
        | NetResponse.connectFailure =>
          (false, ["Failed to connect to Dokploy API - check URL and network connectivity"],
           [Event.providerCall (dokployReq key url)])
    | _, _ => (false, [], [])
  ({ hetznerValid := hetzner.1, dokployValid := dokploy.1,
     errors := hetzner.2.1 ++ dokploy.2.1 }, hetzner.2.2 ++ dokploy.2.2)

end ApiKeysAlt

/-- Modelled from the spec: SpecState is the lifecycle state space named in
section 3 of the spec, `created → provisioning → (ready or failed)` and
`ready → deprovisioning → deleted`. -/
inductive SpecState
  | created
  | provisioning
  | ready
  | failed
  | deprovisioning
  | deleted
deriving DecidableEq, Repr

/-- mapStatus maps the schema's concrete server statuses onto the spec's
lifecycle states: "creating" is the created record, "installing" and
"configuring" are the provisioning phase, "error" is failed, and "deleting"
is the deprovisioning phase. -/
def mapStatus : ServerStatus → SpecState
  | ServerStatus.creating => SpecState.created
  | ServerStatus.installing => SpecState.provisioning
  | ServerStatus.configuring => SpecState.provisioning
  | ServerStatus.ready => SpecState.ready
  | ServerStatus.error => SpecState.failed
  | ServerStatus.deleting => SpecState.deprovisioning

/-- Modelled from the spec: specLifecycleEdge is the transition relation of
the section-3 lifecycle.  Staying in the same lifecycle state is not a
transition, so self-loops are allowed (several schema statuses collapse into
one spec state). -/
def specLifecycleEdge : SpecState → SpecState → Bool
  | SpecState.created, SpecState.provisioning => true
  | SpecState.provisioning, SpecState.ready => true
  | SpecState.provisioning, SpecState.failed => true
  | SpecState.ready, SpecState.deprovisioning => true
  | SpecState.deprovisioning, SpecState.deleted => true
  | a, b => a == b

/-- depServerConsistent checks one deployment row against the servers table:
when the referenced server exists, it belongs to the deployment's owner. -/
def depServerConsistent (db : DB) (p : Nat × DeploymentRecord) : Bool :=
  match findRec p.2.serverId db.servers with
  | some s => s.userId == p.2.userId
  | none => true

/-- ownConsistent holds of a database in which every deployment references
only a server of its own owner; this is how every reachable state looks,
since `createDeployment` checks server ownership and no operation ever
rewrites a deployment's `serverId` or a record's `userId`. -/
def ownConsistent (db : DB) : Prop :=
  ∀ p ∈ db.deployments, depServerConsistent db p = true

/-- mutationPost is the state a Convex mutation leaves behind: the new
database on success, the unchanged database when the handler threw (mutations
are transactional and roll back). -/
def mutationPost {α : Type} (db : DB) (r : Except String (DB × α)) : DB :=
  match r with
  | Except.ok x => x.1
  | Except.error _ => db

/-- provisionedRec is the record the placeholder provisioning path leaves
behind: placeholder Hetzner id and IP, status "ready", Dokploy installed. -/
def provisionedRec (s : ServerRecord) : ServerRecord :=
  { s with hetznerServerId := "placeholder-server-id",
           ipAddress := some "192.168.1.100",
           status := ServerStatus.ready, dokployInstalled := true }

/-- provisionTrace is the event trace of a successful placeholder
provisioning run. -/
def provisionTrace (serverId : Nat) : List Event :=
  [Event.statusWriteServer serverId ServerStatus.installing,
   Event.sleep 1000,
   Event.statusWriteServer serverId ServerStatus.configuring,
   Event.statusWriteServer serverId ServerStatus.ready]

/-- c1srv is a freshly created server of user "alice", as `createServer`
inserts it. -/
def c1srv : ServerRecord :=
  { userId := "alice", hetznerServerId := "", name := "web-1", ipAddress := none,
    status := ServerStatus.creating, region := "fsn1", sshKeyId := none,
    dokployInstalled := false, createdAt := 0, errorMessage := none }

/-- c1db is a store holding only `c1srv` under id 0. -/
def c1db : DB := { servers := [(0, c1srv)], nextId := 1 }

/-- c1srvFailed is `c1srv` marked "error" with the provider failure message. -/
def c1srvFailed : ServerRecord :=
  { c1srv with status := ServerStatus.error, errorMessage := some "hetzner create failed" }

/-- c1afterFail is the store after the provisioning error branch ran on
`c1db`: the server is marked "error" and the destruction task is queued. -/
def c1afterFail : DB :=
  { servers := [(0, c1srvFailed)], pending := [Task.destroyServer 0], nextId := 1 }

/-- c2srv is a ready server owned by user "bob". -/
def c2srv : ServerRecord :=
  { userId := "bob", hetznerServerId := "hz-1", name := "srv", ipAddress := some "1.2.3.4",
    status := ServerStatus.ready, region := "nbg1", sshKeyId := none,
    dokployInstalled := true, createdAt := 3, errorMessage := none }

/-- c2dep is a running deployment owned by user "bob" on server 0. -/
def c2dep : DeploymentRecord :=
  { userId := "bob", serverId := 0, name := "wp", domain := none,
    status := DeploymentStatus.running, wordpressAdminUser := "admin",
    wordpressAdminPass := "pw", sslEnabled := false, createdAt := 4,
    errorMessage := none }

/-- c2db is a store holding `c2srv` under id 0 and `c2dep` under id 1. -/
def c2db : DB := { servers := [(0, c2srv)], deployments := [(1, c2dep)], nextId := 2 }

/-- c3srv is a ready server of user "carol" with a real-looking Hetzner id
and IP address. -/
def c3srv : ServerRecord :=
  { userId := "carol", hetznerServerId := "hz-42", name := "s1",
    ipAddress := some "10.1.2.3", status := ServerStatus.ready, region := "nbg1",
    sshKeyId := none, dokployInstalled := true, createdAt := 5, errorMessage := none }

/-- c3db is a store holding only `c3srv` under id 0. -/
def c3db : DB := { servers := [(0, c3srv)], nextId := 1 }

/-- c3srvAfter is `c3srv` with its Hetzner id and IP address overwritten by
the placeholder values. -/
def c3srvAfter : ServerRecord :=
  { c3srv with hetznerServerId := "placeholder-server-id", ipAddress := some "192.168.1.100" }

/-- c3after is `c3db` after one placeholder provisioning run. -/
def c3after : DB := { servers := [(0, c3srvAfter)], nextId := 1 }

/-- c4keys is a stored credential row of user "dana" whose Hetzner key is not
marked valid. -/
def c4keys : ApiKeysRecord :=
  { userId := "dana", hetznerApiKey := some "stale-key", dokployApiKey := none,
    dokployUrl := none, isHetznerValid := false, isDokployValid := false,
    lastValidated := none }

/-- c4db is a store holding only `c4keys` under id 0. -/
def c4db : DB := { apiKeys := [(0, c4keys)], nextId := 1 }

/-- c5srv is a server of user "dave" that is still in status "creating". -/
def c5srv : ServerRecord :=
  { userId := "dave", hetznerServerId := "", name := "young", ipAddress := none,
    status := ServerStatus.creating, region := "hel1", sshKeyId := none,
    dokployInstalled := false, createdAt := 0, errorMessage := none }

/-- c5db is a store holding only `c5srv` under id 0. -/
def c5db : DB := { servers := [(0, c5srv)], nextId := 1 }

/-- c6srv is a server of user "finn" about to be provisioned. -/
def c6srv : ServerRecord :=
  { userId := "finn", hetznerServerId := "", name := "box", ipAddress := none,
    status := ServerStatus.creating, region := "fsn1", sshKeyId := none,
    dokployInstalled := false, createdAt := 0, errorMessage := none }

/-- c6dep is a deploying deployment of user "finn" on server 0. -/
def c6dep : DeploymentRecord :=
  { userId := "finn", serverId := 0, name := "site", domain := some "x.example",
    status := DeploymentStatus.deploying, wordpressAdminUser := "admin",
    wordpressAdminPass := "pw", sslEnabled := true, createdAt := 1,
    errorMessage := none }

/-- c6db is a store holding `c6srv` under id 0 and `c6dep` under id 1. -/
def c6db : DB := { servers := [(0, c6srv)], deployments := [(1, c6dep)], nextId := 2 }

/-- c8srv is a ready server of user "grace". -/
def c8srv : ServerRecord :=
  { userId := "grace", hetznerServerId := "h", name := "g", ipAddress := none,
    status := ServerStatus.ready, region := "fsn1", sshKeyId := none,
    dokployInstalled := true, createdAt := 0, errorMessage := none }

/-- c8db is a store holding one server of user "grace" under id 0; id 7 is
unused. -/
def c8db : DB := { servers := [(0, c8srv)], nextId := 1 }

/-- c9dep is a deployment owned by user "henry". -/
def c9dep : DeploymentRecord :=
  { userId := "henry", serverId := 0, name := "shop", domain := none,
    status := DeploymentStatus.running, wordpressAdminUser := "admin",
    wordpressAdminPass := "pw", sslEnabled := false, createdAt := 2,
    errorMessage := none }

/-- c9db is a store holding only `c9dep` under id 4. -/
def c9db : DB := { deployments := [(4, c9dep)], nextId := 5 }

/-- c10srvU is a ready server of user "uma" under id 0 in both C10 stores. -/
def c10srvU : ServerRecord :=
  { userId := "uma", hetznerServerId := "h0", name := "mine", ipAddress := some "2.2.2.2",
    status := ServerStatus.ready, region := "fsn1", sshKeyId := none,
    dokployInstalled := true, createdAt := 0, errorMessage := none }

/-- c10depU is a deployment of user "uma" on her server 0. -/
def c10depU : DeploymentRecord :=
  { userId := "uma", serverId := 0, name := "blog", domain := none,
    status := DeploymentStatus.running, wordpressAdminUser := "admin",
    wordpressAdminPass := "pw", sslEnabled := false, createdAt := 1,
    errorMessage := none }

/-- c10srvV is a server of user "vic" present only in `c10db`. -/
def c10srvV : ServerRecord :=
  { userId := "vic", hetznerServerId := "h1", name := "other", ipAddress := none,
    status := ServerStatus.creating, region := "hel1", sshKeyId := none,
    dokployInstalled := false, createdAt := 9, errorMessage := none }

/-- c10srvV2 is a different server of user "vic" present only in `c10db2`. -/
def c10srvV2 : ServerRecord :=
  { userId := "vic", hetznerServerId := "h6", name := "changed",
    ipAddress := some "9.9.9.9", status := ServerStatus.ready, region := "hel1",
    sshKeyId := none, dokployInstalled := true, createdAt := 9, errorMessage := none }

/-- c10depV is a deployment of user "vic" present only in `c10db2`. -/
def c10depV : DeploymentRecord :=
  { userId := "vic", serverId := 6, name := "vicdep", domain := none,
    status := DeploymentStatus.deploying, wordpressAdminUser := "a",
    wordpressAdminPass := "b", sslEnabled := false, createdAt := 10,
    errorMessage := none }

/-- c10db is a store with "uma"'s records plus a server of user "vic". -/
def c10db : DB :=
  { servers := [(0, c10srvU), (1, c10srvV)], deployments := [(2, c10depU)], nextId := 3 }

/-- c10db2 is a store that agrees with `c10db` on "uma"'s records but holds
different records of user "vic". -/
def c10db2 : DB :=
  { servers := [(0, c10srvU), (6, c10srvV2)],
    deployments := [(2, c10depU), (7, c10depV)], nextId := 11 }

/-- findRec_mem relates a successful lookup to list membership. -/
theorem findRec_mem {α : Type} {id : Nat} {r : α} {l : List (Nat × α)}
    (h : findRec id l = some r) : (id, r) ∈ l := by
  induction l with
  | nil => simp [findRec] at h
  | cons p t ih =>
    by_cases hp : p.1 = id
    · simp only [findRec, if_pos hp] at h
      injection h with h2
      have hpr : p = (id, r) := by
        obtain ⟨a, b⟩ := p
        simp only [Prod.mk.injEq]
        exact ⟨hp, h2⟩
      rw [← hpr]
      exact List.mem_cons_self p t
    · simp only [findRec, if_neg hp] at h
      exact List.mem_cons_of_mem p (ih h)

/-- findRec_of_mem_nodup: membership determines the lookup when document ids
are unique. -/
theorem findRec_of_mem_nodup {α : Type} {id : Nat} {r : α} {l : List (Nat × α)}
    (hnd : (l.map Prod.fst).Nodup) (h : (id, r) ∈ l) : findRec id l = some r := by
  induction l with
  | nil => cases h
  | cons p t ih =>
    rw [List.map_cons, List.nodup_cons] at hnd
    rcases List.mem_cons.mp h with h1 | h1
    · have hp : p.1 = id := by rw [← h1]
      simp only [findRec, if_pos hp]
      rw [← h1]
    · have hp : p.1 ≠ id := by
        intro he
        exact hnd.1 (he ▸ List.mem_map.mpr ⟨(id, r), h1, rfl⟩)
      simp only [findRec, if_neg hp]
      exact ih hnd.2 h1

/-- findRec_setRec_of_some: patching a present record makes later lookups see
the new value. -/
theorem findRec_setRec_of_some {α : Type} {id : Nat} {l : List (Nat × α)} {s : α}
    (h : findRec id l = some s) (r : α) : findRec id (setRec id r l) = some r := by
  induction l with
  | nil => simp [findRec] at h
  | cons p t ih =>
    by_cases hp : p.1 = id
    · simp [findRec, setRec, hp]
    · have h' : findRec id t = some s := by
        simpa [findRec, hp] using h
      simp [findRec, setRec, hp, ih h']

/-- setRec_setRec: a second patch of the same document overwrites the first. -/
theorem setRec_setRec {α : Type} (id : Nat) (a b : α) (l : List (Nat × α)) :
    setRec id b (setRec id a l) = setRec id b l := by
  induction l with
  | nil => rfl
  | cons p t ih =>
    by_cases hp : p.1 = id <;> simp [setRec, hp, ih]

/-- findRec_removeRec_self: a deleted document is no longer found. -/
theorem findRec_removeRec_self {α : Type} (id : Nat) (l : List (Nat × α)) :
    findRec id (removeRec id l) = none := by
  induction l with
  | nil => rfl
  | cons p t ih =>
    by_cases hp : p.1 = id <;> simp [removeRec, findRec, hp, ih]

/-- map_congr_mem: mapping functions that agree on a list's elements give the
same result. -/
theorem map_congr_mem {α β : Type} {l : List α} {f g : α → β}
    (h : ∀ a ∈ l, f a = g a) : l.map f = l.map g := by
  induction l with
  | nil => rfl
  | cons a t ih =>
    simp only [List.map_cons]
    rw [h a (List.mem_cons_self a t), ih (fun b hb => h b (List.mem_cons_of_mem a hb))]

/-- findRec_user_iff: two tables with unique ids that agree on the rows of
user `u` agree on every lookup that yields a row of `u`. -/
theorem findRec_user_iff {α : Type} (uid : α → String) (u : String)
    {l1 l2 : List (Nat × α)}
    (h1 : (l1.map Prod.fst).Nodup) (h2 : (l2.map Prod.fst).Nodup)
    (hf : l1.filter (fun p => uid p.2 == u) = l2.filter (fun p => uid p.2 == u))
    (id : Nat) (r : α) (hr : uid r = u) :
    (findRec id l1 = some r ↔ findRec id l2 = some r) := by
  have key : ∀ (l : List (Nat × α)), (l.map Prod.fst).Nodup →
      (findRec id l = some r ↔ (id, r) ∈ l.filter (fun p => uid p.2 == u)) := by
    intro l hnd
    constructor
    · intro h
      refine List.mem_filter.mpr ⟨findRec_mem h, ?_⟩
      simp [hr]
    · intro h
      exact findRec_of_mem_nodup hnd (List.mem_filter.mp h).1
  rw [key l1 h1, key l2 h2, hf]

/-- updateServerStatus_ok: on an owned, present record the internal status
mutation succeeds and patches the record with `applyUpdates`. -/
theorem updateServerStatus_ok (u : String) (args : Servers.UpdateServerStatusArgs)
    (db : DB) (s : ServerRecord)
    (hs : findRec args.serverId db.servers = some s) (hsu : s.userId = u) :
    Servers.updateServerStatus (some u) args db =
      Except.ok { db with servers := setRec args.serverId (Servers.applyUpdates s args) db.servers } := by
  simp [Servers.updateServerStatus, requireAuth, hs, hsu]

/-- provisionServer_ok: with an authenticated owner, a present record and a
successful provider outcome, the placeholder provisioning run succeeds and
replaces the record by `provisionedRec`, emitting exactly the placeholder
trace and scheduling nothing. -/
theorem provisionServer_ok (u : String) (sid : Nat) (db : DB) (s : ServerRecord)
    (hs : findRec sid db.servers = some s) (hsu : s.userId = u) :
    Servers.provisionServer (some u) none sid db =
      Except.ok ({ db with servers := setRec sid (provisionedRec s) db.servers },
                 provisionTrace sid) := by
  have hset := findRec_setRec_of_some hs
  simp [Servers.provisionServer, Servers.updateServerStatus, requireAuth, hs, hsu,
        hset, setRec_setRec, Servers.applyUpdates, provisionedRec, provisionTrace]

/-- deployWordPress_ok: with an authenticated owner and a present record the
placeholder deployment run succeeds, sleeps 2000 ms, and marks the record
"running". -/
theorem deployWordPress_ok (u : String) (did : Nat) (db : DB) (d : DeploymentRecord)
    (hd : findRec did db.deployments = some d) (hdu : d.userId = u) :
    Deployments.deployWordPress (some u) did db =
      Except.ok ({ db with deployments := setRec did ({ d with status := DeploymentStatus.running }) db.deployments },
                 [Event.sleep 2000, Event.statusWriteDeployment did DeploymentStatus.running]) := by
  simp [Deployments.deployWordPress, Deployments.getDeployment,
        Deployments.updateDeploymentStatus, Deployments.patchedDep, requireAuth, hd, hdu]

/-- server_lookup_agree: in two ownership-consistent databases with unique ids
that agree on user `u`'s servers, the server referenced by any deployment of
`u` looks the same. -/
theorem server_lookup_agree (u : String) {db db2 : DB}
    (hs1 : (db.servers.map Prod.fst).Nodup) (hs2 : (db2.servers.map Prod.fst).Nodup)
    (hfs : serversByUser u db = serversByUser u db2)
    (hoc1 : ownConsistent db) (hoc2 : ownConsistent db2)
    {p : Nat × DeploymentRecord} (hp1 : p ∈ db.deployments) (hp2 : p ∈ db2.deployments)
    (hpu : p.2.userId = u) :
    findRec p.2.serverId db.servers = findRec p.2.serverId db2.servers := by
  have hff : db.servers.filter (fun q => ServerRecord.userId q.2 == u) =
      db2.servers.filter (fun q => ServerRecord.userId q.2 == u) := hfs
  cases hA : findRec p.2.serverId db.servers with
  | some s =>
    have hsu : s.userId = u := by
      have hcons := hoc1 p hp1
      simp only [depServerConsistent, hA, beq_iff_eq] at hcons
      exact hcons.trans hpu
    have hB := (findRec_user_iff ServerRecord.userId u hs1 hs2 hff p.2.serverId s hsu).mp hA
    rw [hB]
  | none =>
    cases hB : findRec p.2.serverId db2.servers with
    | none => rfl
    | some s2 =>
      have hsu : s2.userId = u := by
        have hcons := hoc2 p hp2
        simp only [depServerConsistent, hB, beq_iff_eq] at hcons
        exact hcons.trans hpu
      have hcontra := (findRec_user_iff ServerRecord.userId u hs1 hs2 hff p.2.serverId s2 hsu).mpr hB
      rw [hA] at hcontra
      simp at hcontra

/-- deleteServer_ok: on an owned, present record the public delete mutation
succeeds, sets status "deleting", and queues the destruction task. -/
theorem deleteServer_ok (u : String) (sid : Nat) (db : DB) (s : ServerRecord)
    (hs : findRec sid db.servers = some s) (hsu : s.userId = u) :
    Servers.deleteServer (some u) sid db =
      Except.ok ({ db with
                   servers := setRec sid ({ s with status := ServerStatus.deleting }) db.servers,
                   pending := db.pending ++ [Task.destroyServer sid] }) := by
  simp [Servers.deleteServer, requireAuth, hs, hsu]

/-- updateDeploymentStatus_ok: on an owned, present record the public status
mutation succeeds and patches status and (when supplied) errorMessage. -/
theorem updateDeploymentStatus_ok (u : String)
    (args : Deployments.UpdateDeploymentStatusArgs) (db : DB) (d : DeploymentRecord)
    (hd : findRec args.deploymentId db.deployments = some d) (hdu : d.userId = u) :
    Deployments.updateDeploymentStatus (some u) args db =
      Except.ok ({ db with deployments := setRec args.deploymentId (Deployments.patchedDep d args) db.deployments }) := by
  simp [Deployments.updateDeploymentStatus, requireAuth, hd, hdu]

/-- deleteDeployment_ok: on an owned, present record the public delete
mutation succeeds, sets status "stopped", and queues the destruction task. -/
theorem deleteDeployment_ok (u : String) (did : Nat) (db : DB) (d : DeploymentRecord)
    (hd : findRec did db.deployments = some d) (hdu : d.userId = u) :
    Deployments.deleteDeployment (some u) did db =
      Except.ok ({ db with
                   deployments := setRec did ({ d with status := DeploymentStatus.stopped }) db.deployments,
                   pending := db.pending ++ [Task.destroyWordPress did] }) := by
  simp [Deployments.deleteDeployment, requireAuth, hd, hdu]

/-- destroyServer_found_owner: run by the record's owner, the destruction
action deletes a present record. -/
theorem destroyServer_found_owner (u : String) (sid : Nat) (db : DB) (s : ServerRecord)
    (hs : findRec sid db.servers = some s) (hsu : s.userId = u) :
    Servers.destroyServer (some u) sid db =
      Except.ok ({ db with servers := removeRec sid db.servers }, []) := by
  simp [Servers.destroyServer, Servers.getServer, Servers.deleteServerRecord,
        requireAuth, hs, hsu]

/-- destroyServer_noauth_found: run without an authenticated identity -- as a
scheduled action is -- the inner `getServer` throws, the catch runs, and a
present record is still deleted. -/
theorem destroyServer_noauth_found (sid : Nat) (db : DB) (s : ServerRecord)
    (hs : findRec sid db.servers = some s) :
    Servers.destroyServer none sid db =
      Except.ok ({ db with servers := removeRec sid db.servers }, []) := by
  simp [Servers.destroyServer, Servers.getServer, Servers.deleteServerRecord,
        requireAuth, hs]

/-- C1: counterexample.  The claim says a server whose provisioning fails "is
never removed from the state store without an explicit user retry or delete".
On `c1db` the provisioning action takes its error branch, marks the server
"error" -- and schedules `destroyServer`; running that scheduled task then
removes the record, although no user retry (`provisionServer`) or user delete
(`deleteServer`) was ever invoked: the failed server silently disappears. -/
theorem C1_counterexample :
    Servers.provisionServer (some "alice") (some "hetzner create failed") 0 c1db =
      Except.ok (c1afterFail, [Event.statusWriteServer 0 ServerStatus.error]) ∧
    findRec 0 c1afterFail.servers = some c1srvFailed ∧
    c1afterFail.pending = [Task.destroyServer 0] ∧
    Servers.destroyServer (some "alice") 0 c1afterFail =
      Except.ok ({ c1afterFail with servers := [] }, []) ∧
    ({ c1afterFail with servers := ([] : List (Nat × ServerRecord)) } : DB).servers = [] :=
  ⟨rfl, rfl, rfl, rfl, rfl⟩

/-- C1 (amended): a server whose provisioning fails is marked "error" with
the failure message, but it does not remain visible until the user acts: the
error branch itself schedules `destroyServer`, and that scheduled destruction
-- whether it runs with the owner's identity or with none at all -- removes
the record from the state store. -/
theorem C1_amended_failed_server_is_auto_destroyed
    (u msg : String) (sid : Nat) (db : DB) (s : ServerRecord)
    (hs : findRec sid db.servers = some s) (hsu : s.userId = u) :
    ∃ db1, Servers.provisionServer (some u) (some msg) sid db =
        Except.ok (db1, [Event.statusWriteServer sid ServerStatus.error]) ∧
      findRec sid db1.servers = some { s with status := ServerStatus.error, errorMessage := some msg } ∧
      db1.pending = db.pending ++ [Task.destroyServer sid] ∧
      (∃ db2, Servers.destroyServer (some u) sid db1 = Except.ok (db2, []) ∧
        findRec sid db2.servers = none) ∧
      (∃ db2, Servers.destroyServer none sid db1 = Except.ok (db2, []) ∧
        findRec sid db2.servers = none) := by
  have hprov : Servers.provisionServer (some u) (some msg) sid db =
      Except.ok ({ db with
          servers := setRec sid ({ s with status := ServerStatus.error, errorMessage := some msg }) db.servers,
          pending := db.pending ++ [Task.destroyServer sid] },
        [Event.statusWriteServer sid ServerStatus.error]) := by
    simp [Servers.provisionServer, Servers.provisionCatch, Servers.updateServerStatus,
          Servers.applyUpdates, requireAuth, hs, hsu]
  refine ⟨_, hprov, findRec_setRec_of_some hs _, rfl, ?_, ?_⟩
  · exact ⟨_, destroyServer_found_owner u sid _ _ (findRec_setRec_of_some hs _) hsu,
      findRec_removeRec_self _ _⟩
  · exact ⟨_, destroyServer_noauth_found sid _ _ (findRec_setRec_of_some hs _),
      findRec_removeRec_self _ _⟩

/-- C1 (witness): the amended statement applied to the one-server store
`c1db`. -/
theorem C1_amended_witness :
    ∃ db1, Servers.provisionServer (some "alice") (some "net down") 0 c1db =
        Except.ok (db1, [Event.statusWriteServer 0 ServerStatus.error]) ∧
      findRec 0 db1.servers = some { c1srv with status := ServerStatus.error, errorMessage := some "net down" } ∧
      db1.pending = c1db.pending ++ [Task.destroyServer 0] ∧
      (∃ db2, Servers.destroyServer (some "alice") 0 db1 = Except.ok (db2, []) ∧
        findRec 0 db2.servers = none) ∧
      (∃ db2, Servers.destroyServer none 0 db1 = Except.ok (db2, []) ∧
        findRec 0 db2.servers = none) :=
  C1_amended_failed_server_is_auto_destroyed "alice" "net down" 0 c1db c1srv rfl rfl

/-- C2: counterexample.  The claim says `status` is written only by the
internal provisioning/destruction path.  But `deleteServer` and
`updateDeploymentStatus` are registered with the public `mutation` builder,
and on `c2db` each of them writes a `status` field: `deleteServer` patches
the server to "deleting", and `updateDeploymentStatus` patches the
deployment to any caller-chosen status. -/
theorem C2_counterexample :
    Servers.deleteServer_exposure = FnExposure.publicFn ∧
    Servers.deleteServer (some "bob") 0 c2db =
      Except.ok ({ c2db with
                   servers := [(0, { c2srv with status := ServerStatus.deleting })],
                   pending := [Task.destroyServer 0] }) ∧
    Deployments.updateDeploymentStatus_exposure = FnExposure.publicFn ∧
    Deployments.updateDeploymentStatus (some "bob")
        { deploymentId := 1, status := DeploymentStatus.stopped } c2db =
      Except.ok { c2db with deployments := [(1, { c2dep with status := DeploymentStatus.stopped })] } :=
  ⟨rfl, rfl, rfl, rfl⟩

/-- C2 (amended): observed `status` is not written only by the internal
reconciliation path: the public mutations `deleteServer` (always to
"deleting"), `deleteDeployment` (always to "stopped") and
`updateDeploymentStatus` (to any caller-chosen status) also mutate `status`;
the only gate on these public writers is that the caller owns the record,
while `updateServerStatus` itself is internal. -/
theorem C2_amended_status_also_written_by_public_mutations
    (u : String) (sid did : Nat) (db dbD : DB) (s : ServerRecord)
    (d : DeploymentRecord) (stN : DeploymentStatus)
    (hs : findRec sid db.servers = some s) (hsu : s.userId = u)
    (hd : findRec did dbD.deployments = some d) (hdu : d.userId = u) :
    Servers.deleteServer_exposure = FnExposure.publicFn ∧
    Deployments.updateDeploymentStatus_exposure = FnExposure.publicFn ∧
    Deployments.deleteDeployment_exposure = FnExposure.publicFn ∧
    Servers.updateServerStatus_exposure = FnExposure.internalFn ∧
    Servers.deleteServer (some u) sid db =
      Except.ok ({ db with
                   servers := setRec sid ({ s with status := ServerStatus.deleting }) db.servers,
                   pending := db.pending ++ [Task.destroyServer sid] }) ∧
    Deployments.updateDeploymentStatus (some u) { deploymentId := did, status := stN } dbD =
      Except.ok { dbD with deployments := setRec did ({ d with status := stN }) dbD.deployments } ∧
    Deployments.deleteDeployment (some u) did dbD =
      Except.ok ({ dbD with
                   deployments := setRec did ({ d with status := DeploymentStatus.stopped }) dbD.deployments,
                   pending := dbD.pending ++ [Task.destroyWordPress did] }) :=
  ⟨rfl, rfl, rfl, rfl, deleteServer_ok u sid db s hs hsu,
   updateDeploymentStatus_ok u { deploymentId := did, status := stN } dbD d hd hdu,
   deleteDeployment_ok u did dbD d hd hdu⟩

/-- C2 (witness): the amended statement applied to `c2db`, projected to the
public `deleteServer` status write. -/
theorem C2_amended_witness :
    Servers.deleteServer (some "bob") 0 c2db =
      Except.ok ({ c2db with
                   servers := setRec 0 ({ c2srv with status := ServerStatus.deleting }) c2db.servers,
                   pending := c2db.pending ++ [Task.destroyServer 0] }) :=
  (C2_amended_status_also_written_by_public_mutations "bob" 0 1 c2db c2db c2srv c2dep
    DeploymentStatus.stopped rfl rfl rfl rfl).2.2.2.2.1

/-- C3: counterexample.  The claim says re-running the reconciliation step on
an already-"ready" server leaves the record unchanged.  `c3srv` is ready with
Hetzner id "hz-42" and IP 10.1.2.3; one placeholder provisioning run rewrites
both to the placeholder values, so the record (and the store) changes. -/
theorem C3_counterexample :
    Servers.provisionServer (some "carol") none 0 c3db =
      Except.ok (c3after, provisionTrace 0) ∧
    findRec 0 c3after.servers = some c3srvAfter ∧
    c3srvAfter ≠ c3srv ∧
    c3after ≠ c3db :=
  ⟨rfl, rfl, by decide, by decide⟩

/-- C3 (amended): `provisionServer` does not dispatch on the current status;
on a ready record it re-runs the entire placeholder sequence and overwrites
`hetznerServerId` and `ipAddress` with placeholder values, so one run on a
ready record is not a no-op in general.  It is idempotent only on its own
output: once a run has happened, running it again returns exactly the same
database and the same trace. -/
theorem C3_amended_provision_idempotent_only_on_own_output
    (u : String) (sid : Nat) (db db1 : DB) (tr : List Event) (s : ServerRecord)
    (hs : findRec sid db.servers = some s) (hsu : s.userId = u)
    (h1 : Servers.provisionServer (some u) none sid db = Except.ok (db1, tr)) :
    Servers.provisionServer (some u) none sid db1 = Except.ok (db1, tr) := by
  have h0 := provisionServer_ok u sid db s hs hsu
  rw [h1] at h0
  injection h0 with h0'
  rw [Prod.mk.injEq] at h0'
  obtain ⟨hdb, htr⟩ := h0'
  subst hdb
  subst htr
  have h2 := provisionServer_ok u sid
    { db with servers := setRec sid (provisionedRec s) db.servers }
    (provisionedRec s) (findRec_setRec_of_some hs _) hsu
  rw [h2]
  rw [setRec_setRec]
  rfl

/-- C3 (witness): after one run on the ready store `c3db`, a second run
returns the same database and trace. -/
theorem C3_amended_witness :
    Servers.provisionServer (some "carol") none 0 c3after =
      Except.ok (c3after, provisionTrace 0) :=
  C3_amended_provision_idempotent_only_on_own_output "carol" 0 c3db c3after
    (provisionTrace 0) c3srv rfl rfl rfl

/-- C4: a create-server request by a user whose stored Hetzner credential is
not marked valid throws "Valid Hetzner API key required" immediately.  The
mutation is transactional, so the thrown error leaves the store unchanged: no
server row is inserted, no provisioning task is scheduled, no provider call
is made (the handler contains none), and the credential row -- still with
`isHetznerValid = false` -- is untouched, i.e. remains marked invalid. -/
theorem C4_createServer_rejects_unvalidated_credential
    (u : String) (now : Nat) (args : Servers.CreateServerArgs) (db : DB)
    (k : Nat × ApiKeysRecord)
    (hk : apiKeysByUser u db = [k]) (hv : k.2.isHetznerValid = false) :
    Servers.createServer (some u) now args db = Except.error "Valid Hetzner API key required" ∧
    mutationPost db (Servers.createServer (some u) now args db) = db := by
  have h : Servers.createServer (some u) now args db =
      Except.error "Valid Hetzner API key required" := by
    simp [Servers.createServer, uniqueApiKeysByUser, requireAuth, hk, hv]
  refine ⟨h, ?_⟩
  rw [h]
  rfl

/-- C4 (witness): the statement applied to the store `c4db` whose only
credential row has `isHetznerValid = false`. -/
theorem C4_witness :
    Servers.createServer (some "dana") 42 { name := "n1", region := "fsn1" } c4db =
      Except.error "Valid Hetzner API key required" ∧
    mutationPost c4db (Servers.createServer (some "dana") 42 { name := "n1", region := "fsn1" } c4db) = c4db :=
  C4_createServer_rejects_unvalidated_credential "dana" 42
    { name := "n1", region := "fsn1" } c4db (0, c4keys) rfl rfl

/-- C5: counterexample.  The claim says every transition performed by any
operation is an edge of the lifecycle `created → provisioning → (ready |
failed)`, `ready → deprovisioning → deleted`.  But `deleteServer` happily
moves the still-"creating" server of `c5db` to "deleting": mapped to spec
states this is `created → deprovisioning`, which is not a lifecycle edge. -/
theorem C5_counterexample :
    Servers.deleteServer (some "dave") 0 c5db =
      Except.ok ({ c5db with
                   servers := [(0, { c5srv with status := ServerStatus.deleting })],
                   pending := [Task.destroyServer 0] }) ∧
    c5srv.status = ServerStatus.creating ∧
    specLifecycleEdge (mapStatus ServerStatus.creating) (mapStatus ServerStatus.deleting) = false :=
  ⟨rfl, rfl, rfl⟩

/-- C5 (amended): statuses do range over the schema's six literals, and the
placeholder provisioning path does follow the lifecycle (creating →
installing → configuring → ready, i.e. created → provisioning → ready); but
deletion is not restricted to ready resources: `deleteServer` sets an owned
server to "deleting" from any current status, and this move is a lifecycle
edge exactly when the server was "ready" (or already "deleting"). -/
theorem C5_amended_lifecycle_except_unrestricted_deletion
    (u : String) (sid : Nat) (db : DB) (s : ServerRecord)
    (hs : findRec sid db.servers = some s) (hsu : s.userId = u) :
    (∀ st : ServerStatus,
      st ∈ [ServerStatus.creating, ServerStatus.installing, ServerStatus.configuring,
            ServerStatus.ready, ServerStatus.error, ServerStatus.deleting]) ∧
    specLifecycleEdge (mapStatus ServerStatus.creating) (mapStatus ServerStatus.installing) = true ∧
    specLifecycleEdge (mapStatus ServerStatus.installing) (mapStatus ServerStatus.configuring) = true ∧
    specLifecycleEdge (mapStatus ServerStatus.configuring) (mapStatus ServerStatus.ready) = true ∧
    specLifecycleEdge (mapStatus ServerStatus.ready) (mapStatus ServerStatus.deleting) = true ∧
    Servers.deleteServer (some u) sid db =
      Except.ok ({ db with
                   servers := setRec sid ({ s with status := ServerStatus.deleting }) db.servers,
                   pending := db.pending ++ [Task.destroyServer sid] }) ∧
    specLifecycleEdge (mapStatus s.status) (mapStatus ServerStatus.deleting) =
      (decide (s.status = ServerStatus.ready) || decide (s.status = ServerStatus.deleting)) :=
  ⟨fun st => by cases st <;> simp, rfl, rfl, rfl, rfl,
   deleteServer_ok u sid db s hs hsu,
   by cases h : s.status <;> rfl⟩

/-- C5 (witness): the amended statement applied to `c5db`, projected to the
`deleteServer` transition from "creating". -/
theorem C5_amended_witness :
    Servers.deleteServer (some "dave") 0 c5db =
      Except.ok ({ c5db with
                   servers := setRec 0 ({ c5srv with status := ServerStatus.deleting }) c5db.servers,
                   pending := c5db.pending ++ [Task.destroyServer 0] }) :=
  (C5_amended_lifecycle_except_unrestricted_deletion "dave" 0 c5db c5srv rfl rfl).2.2.2.2.2.1

/-- C6: on an existing owned record each placeholder action succeeds: the
server action writes "installing", sleeps 1000 ms, writes "configuring", then
"ready"; the deployment action sleeps 2000 ms and writes "running".  The
traces contain no provider call, exactly one fixed-duration sleep, and each
status value is written exactly once (no polling, no retry). -/
theorem C6_placeholder_actions_sleep_and_mark
    (u : String) (sid did : Nat) (db dbD : DB) (s : ServerRecord) (d : DeploymentRecord)
    (hs : findRec sid db.servers = some s) (hsu : s.userId = u)
    (hd : findRec did dbD.deployments = some d) (hdu : d.userId = u) :
    (∃ db1, Servers.provisionServer (some u) none sid db = Except.ok (db1, provisionTrace sid) ∧
      (findRec sid db1.servers).map ServerRecord.status = some ServerStatus.ready ∧
      db1.pending = db.pending) ∧
    (provisionTrace sid).filter Event.isProviderCall = [] ∧
    (provisionTrace sid).filter Event.isSleep = [Event.sleep 1000] ∧
    (∃ db2, Deployments.deployWordPress (some u) did dbD =
        Except.ok (db2, [Event.sleep 2000, Event.statusWriteDeployment did DeploymentStatus.running]) ∧
      (findRec did db2.deployments).map DeploymentRecord.status = some DeploymentStatus.running ∧
      db2.pending = dbD.pending) ∧
    ([Event.sleep 2000, Event.statusWriteDeployment did DeploymentStatus.running]).filter Event.isProviderCall = [] ∧
    ([Event.sleep 2000, Event.statusWriteDeployment did DeploymentStatus.running]).filter Event.isSleep = [Event.sleep 2000] := by
  refine ⟨⟨_, provisionServer_ok u sid db s hs hsu, ?_, rfl⟩, rfl, rfl,
          ⟨_, deployWordPress_ok u did dbD d hd hdu, ?_, rfl⟩, rfl, rfl⟩
  · rw [show findRec sid (setRec sid (provisionedRec s) db.servers) = some (provisionedRec s) from
      findRec_setRec_of_some hs _]
    rfl
  · rw [show findRec did (setRec did ({ d with status := DeploymentStatus.running }) dbD.deployments) =
        some ({ d with status := DeploymentStatus.running }) from findRec_setRec_of_some hd _]
    rfl

/-- C6 (witness): the statement applied to the store `c6db`, projected to the
provisioning half. -/
theorem C6_witness :
    ∃ db1, Servers.provisionServer (some "finn") none 0 c6db = Except.ok (db1, provisionTrace 0) ∧
      (findRec 0 db1.servers).map ServerRecord.status = some ServerStatus.ready ∧
      db1.pending = c6db.pending :=
  (C6_placeholder_actions_sleep_and_mark "finn" 0 1 c6db c6db c6srv c6dep rfl rfl rfl rfl).1

/-- C7: counterexample.  The claim says the valid/invalid verdict of
`validateApiKeys` is determined by calling a cheap read-only provider
endpoint; but the variant in `packages/backend/convex/apiKeys.ts` declares an
11-character key valid purely from its length, issuing no provider call at
all (its event trace is empty). -/
theorem C7_counterexample :
    (ApiKeysPkg.validateApiKeys { hetznerApiKey := some "12345678901" }).1.hetznerValid = true ∧
    (ApiKeysPkg.validateApiKeys { hetznerApiKey := some "12345678901" }).2 = [] :=
  ⟨rfl, rfl⟩

/-- C7 (amended): the repository holds two `validateApiKeys` variants, both
guarding each check with JS truthiness, so an absent or empty-string
credential is skipped with verdict invalid and no call.  In the unnamed
module (part_000) each provided non-empty credential is checked by exactly
one read-only GET against the provider -- the verdict is `response.ok` --
and in `packages/backend/convex/apiKeys.ts` the verdict is a pure format
check (key length over 10, URL scheme) with no provider call.  Neither
variant performs any database write, so no plaintext secret is persisted by
validation. -/
theorem C7_amended_two_validation_variants
    (net : NetRequest → NetResponse) (key dkey durl : String)
    (hk : key ≠ "") (hdk : dkey ≠ "") (hdu : durl ≠ "") :
    ((ApiKeysAlt.validateApiKeys net { hetznerApiKey := some key }).1.hetznerValid = true ↔
       net (ApiKeysAlt.hetznerReq key) = NetResponse.ok) ∧
    (ApiKeysAlt.validateApiKeys net { hetznerApiKey := some key }).2 =
      [Event.providerCall (ApiKeysAlt.hetznerReq key)] ∧
    (ApiKeysAlt.hetznerReq key).method = NetMethod.GET ∧
    ((ApiKeysAlt.validateApiKeys net { dokployApiKey := some dkey, dokployUrl := some durl }).1.dokployValid = true ↔
       net (ApiKeysAlt.dokployReq dkey durl) = NetResponse.ok) ∧
    (ApiKeysAlt.validateApiKeys net { dokployApiKey := some dkey, dokployUrl := some durl }).2 =
      [Event.providerCall (ApiKeysAlt.dokployReq dkey durl)] ∧
    (ApiKeysAlt.dokployReq dkey durl).method = NetMethod.GET ∧
    (ApiKeysAlt.validateApiKeys net { hetznerApiKey := some "" }).1.hetznerValid = false ∧
    (ApiKeysAlt.validateApiKeys net { hetznerApiKey := some "" }).2 = [] ∧
    (∀ args : ValidateArgs, (ApiKeysPkg.validateApiKeys args).2 = []) ∧
    (∀ k2 : String, k2 ≠ "" →
       (ApiKeysPkg.validateApiKeys { hetznerApiKey := some k2 }).1.hetznerValid =
         decide (k2.length > 10)) := by
  refine ⟨?_, ?_, rfl, ?_, ?_, rfl, rfl, rfl, fun args => rfl, fun k2 hk2 => ?_⟩
  · cases h : net (ApiKeysAlt.hetznerReq key) <;>
      simp [ApiKeysAlt.validateApiKeys, hk, h]
  · cases h : net (ApiKeysAlt.hetznerReq key) <;>
      simp [ApiKeysAlt.validateApiKeys, hk, h]
  · cases h : net (ApiKeysAlt.dokployReq dkey durl) <;>
      simp [ApiKeysAlt.validateApiKeys, hdk, hdu, h]
  · cases h : net (ApiKeysAlt.dokployReq dkey durl) <;>
      simp [ApiKeysAlt.validateApiKeys, hdk, hdu, h]
  · by_cases hl : k2.length > 10 <;> simp [ApiKeysPkg.validateApiKeys, hk2, hl]

/-- C7 (witness): the amended statement instantiated on a network that
answers ok and non-empty credentials, projected to the placeholder variant's
empty trace. -/
theorem C7_amended_witness :
    (ApiKeysPkg.validateApiKeys { hetznerApiKey := some "abc" }).2 = [] :=
  (C7_amended_two_validation_variants (fun _ => NetResponse.ok) "a" "b" "http://dok"
    (by decide) (by decide) (by decide)).2.2.2.2.2.2.2.2.1 { hetznerApiKey := some "abc" }

/-- C8: deleting a server whose record is missing, or owned by someone other
than the caller, makes `destroyServer` return successfully with no events and
the store unchanged: not-found during deletion is treated as success. -/
theorem C8_destroy_missing_or_foreign_is_noop
    (u : String) (sid : Nat) (db : DB)
    (h : findRec sid db.servers = none ∨
         ∃ s, findRec sid db.servers = some s ∧ s.userId ≠ u) :
    Servers.destroyServer (some u) sid db = Except.ok (db, []) := by
  rcases h with h | ⟨s, hsv, hne⟩
  · simp [Servers.destroyServer, Servers.getServer, requireAuth, h]
  · simp [Servers.destroyServer, Servers.getServer, requireAuth, hsv, hne]

/-- C8 (witness): the statement applied to `c8db` at the unused id 7 and,
separately, by the foreign caller "eve" on "grace"'s server 0. -/
theorem C8_witness :
    Servers.destroyServer (some "eve") 7 c8db = Except.ok (c8db, []) ∧
    Servers.destroyServer (some "eve") 0 c8db = Except.ok (c8db, []) :=
  ⟨C8_destroy_missing_or_foreign_is_noop "eve" 7 c8db (Or.inl rfl),
   C8_destroy_missing_or_foreign_is_noop "eve" 0 c8db
     (Or.inr ⟨c8srv, rfl, by decide⟩)⟩

/-- C9: `deleteDeploymentRecord` is registered with the public `mutation`
builder (unlike the internal `deleteServerRecord`), performs no
authentication or ownership check -- its result is the same for any caller,
authenticated or not -- deletes any present record unconditionally, and the
only error it can ever raise is the nonexistent-document error, never "Not
authenticated" or an access-denied error. -/
theorem C9_deleteDeploymentRecord_public_and_unconditional
    (a1 a2 : Option String) (did : Nat) (db : DB) (d : DeploymentRecord)
    (hd : findRec did db.deployments = some d) :
    Deployments.deleteDeploymentRecord_exposure = FnExposure.publicFn ∧
    Servers.deleteServerRecord_exposure = FnExposure.internalFn ∧
    Deployments.deleteDeploymentRecord a1 did db = Deployments.deleteDeploymentRecord a2 did db ∧
    Deployments.deleteDeploymentRecord a1 did db =
      Except.ok ({ db with deployments := removeRec did db.deployments }) ∧
    findRec did (removeRec did db.deployments) = none ∧
    (∀ (a : Option String) (j : Nat) (db2 : DB) (e : String),
       Deployments.deleteDeploymentRecord a j db2 = Except.error e →
       e = "Delete on nonexistent document") := by
  refine ⟨rfl, rfl, rfl, ?_, findRec_removeRec_self _ _, ?_⟩
  · simp [Deployments.deleteDeploymentRecord, hd]
  · intro a j db2 e he
    cases hf : findRec j db2.deployments with
    | none =>
      simp [Deployments.deleteDeploymentRecord, hf] at he
      exact he.symm
    | some x =>
      simp [Deployments.deleteDeploymentRecord, hf] at he

/-- C9 (witness): the statement applied to `c9db`, comparing an anonymous
caller with a foreign authenticated caller. -/
theorem C9_witness :
    Deployments.deleteDeploymentRecord none 4 c9db = Deployments.deleteDeploymentRecord (some "mallory") 4 c9db ∧
    Deployments.deleteDeploymentRecord none 4 c9db =
      Except.ok ({ c9db with deployments := removeRec 4 c9db.deployments }) :=
  ⟨(C9_deleteDeploymentRecord_public_and_unconditional none (some "mallory") 4 c9db c9dep rfl).2.2.1,
   (C9_deleteDeploymentRecord_public_and_unconditional none (some "mallory") 4 c9db c9dep rfl).2.2.2.1⟩

/-- C10: per-user isolation of the read interface.  In any store with unique
document ids whose deployments reference only their owner's servers (the
shape every reachable store has), `getUserServers` returns exactly the
projections of the caller's rows, the single-record queries return `null` on
rows owned by someone else, and the answer of all four read queries depends
only on the caller's own rows: two stores agreeing on user `u`'s servers and
deployments give `u` identical answers, so adding, removing or modifying
another user's records never changes what `u` observes. -/
theorem C10_per_user_isolation (u : String) (db db2 : DB)
    (hs1 : (db.servers.map Prod.fst).Nodup) (hs2 : (db2.servers.map Prod.fst).Nodup)
    (hd1 : (db.deployments.map Prod.fst).Nodup) (hd2 : (db2.deployments.map Prod.fst).Nodup)
    (hoc1 : ownConsistent db) (hoc2 : ownConsistent db2)
    (hfs : serversByUser u db = serversByUser u db2)
    (hfd : deploymentsByUser u db = deploymentsByUser u db2) :
    (∀ l, Servers.getUserServers (some u) db = Except.ok l →
       ∀ it, it ∈ l ↔ ∃ p, p ∈ db.servers ∧ p.2.userId = u ∧ it = Servers.serverItem p) ∧
    (∀ sid s, findRec sid db.servers = some s → s.userId ≠ u →
       Servers.getServer (some u) sid db = Except.ok none) ∧
    (∀ did d, findRec did db.deployments = some d → d.userId ≠ u →
       Deployments.getDeployment (some u) did db = Except.ok none) ∧
    Servers.getUserServers (some u) db = Servers.getUserServers (some u) db2 ∧
    Deployments.getUserDeployments (some u) db = Deployments.getUserDeployments (some u) db2 ∧
    (∀ sid, Servers.getServer (some u) sid db = Servers.getServer (some u) sid db2) ∧
    (∀ did, Deployments.getDeployment (some u) did db = Deployments.getDeployment (some u) did db2) := by
  have hff : db.servers.filter (fun q => ServerRecord.userId q.2 == u) =
      db2.servers.filter (fun q => ServerRecord.userId q.2 == u) := hfs
  have hffd : db.deployments.filter (fun q => DeploymentRecord.userId q.2 == u) =
      db2.deployments.filter (fun q => DeploymentRecord.userId q.2 == u) := hfd
  refine ⟨?_, ?_, ?_, ?_, ?_, ?_, ?_⟩
  · intro l hl it
    have hl' : (serversByUser u db).map Servers.serverItem = l := by
      simpa [Servers.getUserServers, requireAuth] using hl
    subst hl'
    constructor
    · intro hmem
      rcases List.mem_map.mp hmem with ⟨p, hpf, hpe⟩
      rcases List.mem_filter.mp hpf with ⟨hpm, hpu⟩
      refine ⟨p, hpm, ?_, hpe.symm⟩
      simpa using hpu
    · rintro ⟨p, hpm, hpu, hpe⟩
      refine List.mem_map.mpr ⟨p, List.mem_filter.mpr ⟨hpm, ?_⟩, hpe.symm⟩
      simp [hpu]
  · intro sid s hsv hne
    simp [Servers.getServer, requireAuth, hsv, hne]
  · intro did d hdv hne
    simp [Deployments.getDeployment, requireAuth, hdv, hne]
  · simp only [Servers.getUserServers, requireAuth]
    rw [hfs]
  · simp only [Deployments.getUserDeployments, requireAuth]
    rw [← hfd]
    refine congrArg Except.ok (map_congr_mem ?_)
    intro p hp
    have hp1 : p ∈ db.deployments := (List.mem_filter.mp hp).1
    have hpu : p.2.userId = u := by
      simpa using (List.mem_filter.mp hp).2
    have hp2 : p ∈ db2.deployments := by
      have hp' : p ∈ deploymentsByUser u db2 := by rw [← hfd]; exact hp
      exact (List.mem_filter.mp hp').1
    rw [server_lookup_agree u hs1 hs2 hfs hoc1 hoc2 hp1 hp2 hpu]
  · intro sid
    cases hA : findRec sid db.servers with
    | some s =>
      by_cases hu : s.userId = u
      · have hB := (findRec_user_iff ServerRecord.userId u hs1 hs2 hff sid s hu).mp hA
        simp [Servers.getServer, requireAuth, hA, hB]
      · cases hB : findRec sid db2.servers with
        | none => simp [Servers.getServer, requireAuth, hA, hB, hu]
        | some s2 =>
          by_cases hu2 : s2.userId = u
          · exfalso
            have hcon := (findRec_user_iff ServerRecord.userId u hs1 hs2 hff sid s2 hu2).mpr hB
            rw [hA] at hcon
            injection hcon with h2
            exact hu (by rw [h2]; exact hu2)
          · simp [Servers.getServer, requireAuth, hA, hB, hu, hu2]
    | none =>
      cases hB : findRec sid db2.servers with
      | none => simp [Servers.getServer, requireAuth, hA, hB]
      | some s2 =>
        by_cases hu2 : s2.userId = u
        · exfalso
          have hcon := (findRec_user_iff ServerRecord.userId u hs1 hs2 hff sid s2 hu2).mpr hB
          rw [hA] at hcon
          cases hcon
        · simp [Servers.getServer, requireAuth, hA, hB, hu2]
  · intro did
    cases hA : findRec did db.deployments with
    | some d =>
      by_cases hu : d.userId = u
      · have hB := (findRec_user_iff DeploymentRecord.userId u hd1 hd2 hffd did d hu).mp hA
        have hsrv := server_lookup_agree u hs1 hs2 hfs hoc1 hoc2
          (findRec_mem hA) (findRec_mem hB) hu
        simp [Deployments.getDeployment, requireAuth, hA, hB, hu,
              Deployments.deploymentItem, hsrv]
      · cases hB : findRec did db2.deployments with
        | none => simp [Deployments.getDeployment, requireAuth, hA, hB, hu]
        | some d2 =>
          by_cases hu2 : d2.userId = u
          · exfalso
            have hcon := (findRec_user_iff DeploymentRecord.userId u hd1 hd2 hffd did d2 hu2).mpr hB
            rw [hA] at hcon
            injection hcon with h2
            exact hu (by rw [h2]; exact hu2)
          · simp [Deployments.getDeployment, requireAuth, hA, hB, hu, hu2]
    | none =>
      cases hB : findRec did db2.deployments with
      | none => simp [Deployments.getDeployment, requireAuth, hA, hB]
      | some d2 =>
        by_cases hu2 : d2.userId = u
        · exfalso
          have hcon := (findRec_user_iff DeploymentRecord.userId u hd1 hd2 hffd did d2 hu2).mpr hB
          rw [hA] at hcon
          cases hcon
        · simp [Deployments.getDeployment, requireAuth, hA, hB, hu2]

/-- C10 (witness): the statement applied to the stores `c10db` and `c10db2`,
which differ exactly in user "vic"'s records; user "uma" observes the same
answers in both. -/
theorem C10_witness :
    Servers.getUserServers (some "uma") c10db = Servers.getUserServers (some "uma") c10db2 ∧
    Deployments.getUserDeployments (some "uma") c10db = Deployments.getUserDeployments (some "uma") c10db2 :=
  ⟨(C10_per_user_isolation "uma" c10db c10db2 (by decide) (by decide) (by decide) (by decide)
      (by decide : ∀ p ∈ c10db.deployments, depServerConsistent c10db p = true)
      (by decide : ∀ p ∈ c10db2.deployments, depServerConsistent c10db2 p = true)
      (by decide) (by decide)).2.2.2.1,
   (C10_per_user_isolation "uma" c10db c10db2 (by decide) (by decide) (by decide) (by decide)
      (by decide : ∀ p ∈ c10db.deployments, depServerConsistent c10db p = true)
      (by decide : ∀ p ∈ c10db2.deployments, depServerConsistent c10db2 p = true)
      (by decide) (by decide)).2.2.2.2.1⟩

end AffOrch
